import Mathlib

/-!
Shallow embedding of the sf-org-summary-core pipeline (src/src/index.ts and
src/libs/CountCodeLines.ts).  External collaborators (shell commands, the
HTTP client, CSV/JSON parsing, the file system and the clock) are modelled
as explicit inputs carrying the outcome the collaborator would have
produced; every derivation and control-flow decision of the source itself
is translated.  `Except String α` models a call that either returns a value
or throws an error with a message.
-/

/-- Result of a JavaScript number division, keeping the IEEE special values
`NaN` and the infinities that `a / b` produces when `b = 0`.  Finite values
are idealised as rationals. -/
inductive JSNum where
  | num (q : Rat)
  | nan
  | posInf
  | negInf
  deriving DecidableEq, Repr

/-- JavaScript division `a / b` for finite operands: `0 / 0` is `NaN`,
`a / 0` is a signed infinity for `a ≠ 0`, otherwise the exact quotient. -/
def jsDiv (a b : Rat) : JSNum :=
  if b = 0 then (if a = 0 then JSNum.nan else if 0 < a then JSNum.posInf else JSNum.negInf)
  else JSNum.num (a / b)

/-- Multiplication of a division result by the positive literal `100`
(`NaN` and the infinities absorb it). -/
def JSNum.mul100 : JSNum → JSNum
  | JSNum.num q => JSNum.num (q * 100)
  | x => x

/-- JavaScript `v || d` on an optional string (`undefined` and `""` are falsy). -/
def jsOrString (v : Option String) (d : String) : String :=
  match v with
  | none => d
  | some s => if s = "" then d else s

/-- Tenant identity, from `interface OrgInfo` (src/src/index.ts:627-632). -/
structure OrgInfo where
  username : String
  accessToken : String
  instanceUrl : String
  orgId : String
  deriving DecidableEq, Repr

/-- `getOrgInfo` (src/src/index.ts:634-655): the `sfdx force:org:display`
call either yields the org info or throws; the catch logs and falls through
to a value whose four fields are all empty strings. -/
def getOrgInfo (cmdResult : Except String OrgInfo) : OrgInfo :=
  match cmdResult with
  | Except.ok info => info
  | Except.error _ => { username := "", accessToken := "", instanceUrl := "", orgId := "" }

/-- One raw entry of the limits API response (src/src/index.ts:288-304):
`Max` / `Remaining` are `none` when the field is absent (`undefined`). -/
structure RawLimit where
  Name : String
  Max : Option Int
  Remaining : Option Int
  deriving DecidableEq, Repr

/-- `interface Limit` (models/summary): a retained limit row. -/
structure Limit where
  Name : String
  Description : String
  Max : Int
  Remaining : Int
  Usage : Int
  deriving DecidableEq, Repr

/-- `interface LimitSummary` (models/summary). -/
structure LimitSummary where
  Applicable : Int
  Reached : Int
  Unattained : Int
  Details : List Limit
  deriving DecidableEq, Repr

/-- `checkLimits` (src/src/index.ts:278-312) over the outcome of the
`axios.get` call: on a rejected call the error is caught, logged, and the
`limits` accumulated so far — the empty list — are returned; on success a
row is retained exactly when both `Max` and `Remaining` are defined, with
`Usage = Max - Remaining`, and rows missing either field are skipped. -/
def checkLimits (limitsApi : Except String (List RawLimit)) : List Limit :=
  match limitsApi with
  | Except.error _ => []
  | Except.ok limitsData =>
      limitsData.filterMap (fun limitInfo =>
        match limitInfo.Max, limitInfo.Remaining with
        | some m, some r =>
            some { Name := limitInfo.Name, Description := "Description for " ++ limitInfo.Name,
                   Max := m, Remaining := r, Usage := m - r }
        | _, _ => none)

/-- The `baseSummary.Limits` fragment built in `summarizeOrg`
(src/src/index.ts:73-80). -/
def buildLimitSummary (limits : List Limit) : LimitSummary :=
  { Applicable := (limits.length : Int),
    Reached := ((limits.filter (fun limit => limit.Remaining == 0)).length : Int),
    Unattained := (limits.length : Int) - ((limits.filter (fun limit => limit.Remaining == 0)).length : Int),
    Details := limits }

/-- `interface HealthCheckRisk` (models/summary). -/
structure HealthCheckRisk where
  OrgValue : String
  RiskType : String
  Setting : String
  SettingGroup : String
  SettingRiskCategory : String
  deriving DecidableEq, Repr

/-- `interface HealthCheckSummary` (models/summary), at the values the code
actually writes (the `N/A` placeholders are always overwritten). -/
structure HealthCheckSummary where
  Score : Rat
  Criteria : Nat
  Compliant : Int
  Risks : Nat
  Details : List HealthCheckRisk
  deriving DecidableEq, Repr

/-- `getHealthCheckScore` (src/src/index.ts:412-444) over the two parsed
CSV row sets: `hcScore[0].Score` throws when the score query returned no
row; risks whose `RiskType` is the `MEETS_STANDARD` sentinel are filtered
out of the risk count but kept in `Details`. -/
def getHealthCheckScore (scoreRows : List Rat) (riskRows : List HealthCheckRisk) :
    Except String HealthCheckSummary :=
  match scoreRows with
  | [] => Except.error "Cannot read properties of undefined"
  | score :: _ =>
      let hcRisksFiltered := riskRows.filter (fun risk => risk.RiskType != "MEETS_STANDARD")
      Except.ok
        { Score := score,
          Criteria := riskRows.length,
          Compliant := (riskRows.length : Int) - (hcRisksFiltered.length : Int),
          Risks := hcRisksFiltered.length,
          Details := riskRows }

/-- Outcome of the shell command + CSV parse inside `queryMetadata`
(src/src/index.ts:450-465).  A failing command is caught there and handed
to `handleQueryError`; that helper reads `error.stderr`, so when the thrown
value has a `stderr` string the error is swallowed (logged, pushed into a
local, discarded array) and `[]` is returned, while a thrown value without
`stderr` makes `handleQueryError` itself throw out of `queryMetadata`. -/
inductive QueryFate (α : Type) where
  | rows (rs : List α)
  | cmdErrorHandled (msg : String)
  | cmdErrorThrow (msg : String)
  deriving DecidableEq, Repr

/-- `queryMetadata` (src/src/index.ts:450-465) as seen by its callers:
rows on success, `[]` when the command failed but the failure was handled,
and a propagated exception otherwise. -/
def queryMetadata {α : Type} : QueryFate α → Except String (List α)
  | QueryFate.rows rs => Except.ok rs
  | QueryFate.cmdErrorHandled _ => Except.ok []
  | QueryFate.cmdErrorThrow msg => Except.error msg

/-- One row of the `AsyncApexJob` status query (src/src/index.ts:503). -/
structure AsyncApexJobRow where
  Id : String
  Status : String
  deriving DecidableEq, Repr

/-- Loop guard of `pollTestRunResult` (src/src/index.ts:501). -/
def pollContinue (status : String) : Bool :=
  status == "Queued" || status == "Processing"

/-- One iteration body of `pollTestRunResult` (src/src/index.ts:502-515):
query the job status; a nonempty result replaces the status with the head
row's `Status`, an empty result leaves it unchanged, and a thrown query
error is caught and turns the status into `Failed`. -/
def pollStep (status : String) (tick : QueryFate AsyncApexJobRow) : String :=
  match queryMetadata tick with
  | Except.error _ => "Failed"
  | Except.ok [] => status
  | Except.ok (testJob :: _) => testJob.Status

/-- The `while` loop of `pollTestRunResult` driven by the list of outcomes
of the successive status queries: `none` means the supplied ticks were
exhausted with the loop still running (the source loops on, unbounded). -/
def pollLoop (status : String) : List (QueryFate AsyncApexJobRow) → Option String
  | [] => if pollContinue status then none else some status
  | tick :: ticks =>
      if pollContinue status then pollLoop (pollStep status tick) ticks
      else some status

/-- `pollTestRunResult` (src/src/index.ts:499-520): the loop starts from
status `Queued`. -/
def pollTestRunResult (ticks : List (QueryFate AsyncApexJobRow)) : Option String :=
  pollLoop "Queued" ticks

/-- The fixed wait between polling iterations,
`setTimeout(resolve, 5000)` (src/src/index.ts:517), in milliseconds. -/
def pollIntervalMs : Nat := 5000

/-- One row of the `ApexTestRunResult` query (src/src/index.ts:534). -/
structure TestRunRow where
  Status : String
  TestTime : Rat
  MethodsCompleted : Int
  MethodsFailed : Int
  deriving DecidableEq, Repr

/-- Return value of `getTestRunDetails` (src/src/index.ts:532). -/
structure TestRunDetails where
  outcome : String
  runtime : Rat
  methodsCompleted : Int
  methodsFailed : Int
  deriving DecidableEq, Repr

/-- `getTestRunDetails` (src/src/index.ts:532-552): `null` when the query
threw or returned no row; otherwise the head row is classified `Pass`
exactly when `Status === 'Completed' && MethodsFailed === 0`, else `Fail`. -/
def getTestRunDetails (q : QueryFate TestRunRow) : Option TestRunDetails :=
  match queryMetadata q with
  | Except.error _ => none
  | Except.ok [] => none
  | Except.ok (testRunResult :: _) =>
      let outcome :=
        if testRunResult.Status = "Completed" ∧ testRunResult.MethodsFailed = 0 then "Pass" else "Fail"
      some { outcome := outcome, runtime := testRunResult.TestTime,
             methodsCompleted := testRunResult.MethodsCompleted,
             methodsFailed := testRunResult.MethodsFailed }

/-- `getOrgWideApexCoverage` (src/src/index.ts:554-564): `null` only when
the query threw; otherwise `reduce(..., 0) / results.length` — a JavaScript
division, so an empty row set yields `0 / 0 = NaN`, not `null`. -/
def getOrgWideApexCoverage (q : QueryFate Rat) : Option JSNum :=
  match queryMetadata q with
  | Except.error _ => none
  | Except.ok results => some (jsDiv (results.foldl (· + ·) 0) (results.length : Rat))

/-- `calculateCoveragePercentage` (src/src/index.ts:407-410). -/
def calculateCoveragePercentage (linesCovered linesUncovered : Nat) : Rat :=
  let totalLines := linesCovered + linesUncovered
  if totalLines > 0 then ((linesCovered : Rat) / (totalLines : Rat)) * 100 else 0

/-- One row of the `ApexCodeCoverageAggregate` query
(src/src/index.ts:367-371); `Name` is `none` when the aliased column is
absent from the row. -/
structure ApexCovRow where
  Name : Option String
  NumLinesCovered : Nat
  NumLinesUncovered : Nat
  deriving DecidableEq, Repr

/-- `interface ApexClassCoverage` at the values this code writes. -/
structure ApexClassCoverage where
  Name : String
  CoveragePercentage : Rat
  deriving DecidableEq, Repr

/-- `getApexClassCoverageDetails` (src/src/index.ts:365-379). -/
def getApexClassCoverageDetails (q : QueryFate ApexCovRow) : List ApexClassCoverage :=
  match queryMetadata q with
  | Except.error _ => []
  | Except.ok results =>
      results.map (fun r =>
        { Name := jsOrString r.Name "N/A",
          CoveragePercentage := calculateCoveragePercentage r.NumLinesCovered r.NumLinesUncovered })

/-- `interface FlowCoverageRecord` (src/src/index.ts:758-767). -/
structure FlowCoverageRecord where
  Id : String
  ApexTestClassId : String
  TestMethodName : String
  FlowVersionId : String
  NumElementsCovered : Nat
  NumElementsNotCovered : Nat
  deriving DecidableEq, Repr

/-- The `result` payload of `interface CoverageResult`. -/
structure CoverageRecords where
  done : Bool
  totalSize : Nat
  records : List FlowCoverageRecord
  deriving DecidableEq, Repr

/-- `interface CoverageResult` (src/src/index.ts:769-776). -/
structure CoverageResult where
  status : Int
  result : CoverageRecords
  deriving DecidableEq, Repr

/-- `interface FlowDefinitionViewRecord` (src/src/index.ts:778-787). -/
structure FlowDefinitionViewRecord where
  ApiName : String
  InstalledPackageName : String
  ActiveVersionId : String
  Label : String
  deriving DecidableEq, Repr

/-- The `result` payload of `interface FlowDefinitionViewResult`. -/
structure FlowDefRecords where
  done : Bool
  totalSize : Nat
  records : List FlowDefinitionViewRecord
  deriving DecidableEq, Repr

/-- `interface FlowDefinitionViewResult` (src/src/index.ts:789-796). -/
structure FlowDefinitionViewResult where
  status : Int
  result : FlowDefRecords
  deriving DecidableEq, Repr

/-- Per-flow coverage entry produced by `getFlowCoverageDetails`. -/
structure FlowCoverageOut where
  Name : String
  CoveragePercentage : JSNum
  deriving DecidableEq, Repr

/-- `getFlowCoveragePercentage` (src/src/index.ts:345-363): the overall
flow percentage is taken from the first coverage row only, guarded against
a zero element count; errors and an empty row set give `0`. -/
def getFlowCoveragePercentage (cov : Except String CoverageResult) : Rat :=
  match cov with
  | Except.error _ => 0
  | Except.ok coverageResult =>
      match coverageResult.result.records with
      | [] => 0
      | firstRecord :: _ =>
          let totalElements := firstRecord.NumElementsCovered + firstRecord.NumElementsNotCovered
          if totalElements > 0 then ((firstRecord.NumElementsCovered : Rat) / (totalElements : Rat)) * 100
          else 0

/-- `getFlowCoverageDetails` (src/src/index.ts:314-343): each active flow
definition is matched to a coverage row by version id; a matched row's
percentage is computed without a zero guard (a JavaScript division), an
unmatched flow gets `0`; any error or an empty definition set gives `[]`. -/
def getFlowCoverageDetails (cov : Except String CoverageResult)
    (defsRes : Except String FlowDefinitionViewResult) : List FlowCoverageOut :=
  match cov, defsRes with
  | Except.ok coverageResult, Except.ok flowDefinitionsResult =>
      if flowDefinitionsResult.result.records.length > 0 then
        let coverageRecords := coverageResult.result.records
        flowDefinitionsResult.result.records.map (fun flowDef =>
          match coverageRecords.find? (fun coverage => coverage.FlowVersionId == flowDef.ActiveVersionId) with
          | some matchingCoverage =>
              { Name := flowDef.Label,
                CoveragePercentage :=
                  (jsDiv (matchingCoverage.NumElementsCovered : Rat)
                    ((matchingCoverage.NumElementsCovered + matchingCoverage.NumElementsNotCovered : Nat) : Rat)).mul100 }
          | none => { Name := flowDef.Label, CoveragePercentage := JSNum.num 0 })
      else []
  | _, _ => []

/-- `interface LinesOfCode` (models/summary), the output of the external
`countCodeLines` collaborator (`Code = Total - Comments` may be negative,
as comment matches are counted per match, not per line). -/
structure LinesOfCode where
  Total : Nat
  Comments : Nat
  Code : Int
  deriving DecidableEq, Repr

/-- The `Details` sub-object of the Apex category of `CodeDetails`. -/
structure ApexLineDetails where
  ApexClass : LinesOfCode
  ApexTrigger : LinesOfCode
  deriving DecidableEq, Repr

/-- The `Details` sub-object of the JavaScript category of `CodeDetails`. -/
structure JavaScriptLineDetails where
  AuraDefinitionBundle : LinesOfCode
  LightningComponentBundle : LinesOfCode
  StaticResource : LinesOfCode
  deriving DecidableEq, Repr

/-- The Apex category of `CodeDetails`. -/
structure ApexLines where
  Total : Nat
  Comments : Nat
  Code : Int
  Details : ApexLineDetails
  deriving DecidableEq, Repr

/-- The JavaScript category of `CodeDetails`. -/
structure JavaScriptLines where
  Total : Nat
  Comments : Nat
  Code : Int
  Details : JavaScriptLineDetails
  deriving DecidableEq, Repr

/-- `interface CodeDetails` (models/summary). -/
structure CodeDetails where
  Apex : ApexLines
  JavaScript : JavaScriptLines
  deriving DecidableEq, Repr

/-- `calculateCodeLines` (src/src/index.ts:566-601) over the five
`countCodeLines` results (line counting over the retrieved source tree is
an external collaborator per the capability boundary). -/
def calculateCodeLines (apexClassCL apexTriggerCL auraDefinitionBundleCL
    lightningComponentBundleCL staticResourceCL : LinesOfCode) : CodeDetails :=
  { Apex :=
      { Total := apexClassCL.Total + apexTriggerCL.Total,
        Comments := apexClassCL.Comments + apexTriggerCL.Comments,
        Code := apexClassCL.Code + apexTriggerCL.Code,
        Details := { ApexClass := apexClassCL, ApexTrigger := apexTriggerCL } },
    JavaScript :=
      { Total := auraDefinitionBundleCL.Total + lightningComponentBundleCL.Total + staticResourceCL.Total,
        Comments := auraDefinitionBundleCL.Comments + lightningComponentBundleCL.Comments + staticResourceCL.Comments,
        Code := auraDefinitionBundleCL.Code + lightningComponentBundleCL.Code + staticResourceCL.Code,
        Details := { AuraDefinitionBundle := auraDefinitionBundleCL,
                     LightningComponentBundle := lightningComponentBundleCL,
                     StaticResource := staticResourceCL } } }

/-- `interface ProblemInfo` (models/summary), one static-analysis issue. -/
structure ProblemInfo where
  Problem : String
  Severity : String
  NormalizedSeverity : String
  File : String
  Line : String
  Column : String
  Rule : String
  Description : String
  URL : String
  Category : String
  Engine : String
  deriving DecidableEq, Repr

/-- `interface CodeAnalysis` (models/summary); `RisksPerLineRatio` is a
JavaScript division result. -/
structure CodeAnalysis where
  LinesOfCode : Nat
  Risks : Nat
  RisksPerLineRatio : JSNum
  LineDetails : CodeDetails
  RiskDetails : List ProblemInfo
  deriving DecidableEq, Repr

/-- Inputs of the code-analysis phase when the retrieve/scan commands
succeed: the parsed scanner issues and the five `countCodeLines` results. -/
structure CodeAnalysisInputs where
  results : List ProblemInfo
  apexClassCL : LinesOfCode
  apexTriggerCL : LinesOfCode
  auraCL : LinesOfCode
  lwcCL : LinesOfCode
  staticCL : LinesOfCode
  deriving DecidableEq, Repr

/-- The `baseSummary.Code` fragment built in `summarizeOrg`
(src/src/index.ts:95-97): `RisksPerLineRatio` is
`results.length / (Apex.Total + JavaScript.Total)` with no zero guard. -/
def buildCodeAnalysis (inputs : CodeAnalysisInputs) : CodeAnalysis :=
  let codeLines := calculateCodeLines inputs.apexClassCL inputs.apexTriggerCL
    inputs.auraCL inputs.lwcCL inputs.staticCL
  { Risks := inputs.results.length,
    RiskDetails := inputs.results,
    LinesOfCode := codeLines.Apex.Total + codeLines.JavaScript.Total,
    RisksPerLineRatio :=
      jsDiv (inputs.results.length : Rat) ((codeLines.Apex.Total + codeLines.JavaScript.Total : Nat) : Rat),
    LineDetails := codeLines }

/-- One row of an inventory query, from `interface QueryResult`
(src/src/index.ts:603-625), flattened to the fields the code reads. -/
structure QueryRow where
  CreatedByName : String
  CreatedDate : String
  Id : String
  LastModifiedByName : String
  LastModifiedDate : String
  deriving DecidableEq, Repr

/-- `interface ComponentSummary` at the values `calculateComponentSummary`
writes (`Total` is always the positive row count there). -/
structure ComponentSummary where
  Total : Nat
  LastModifiedDate : String
  deriving DecidableEq, Repr

/-- `buildQuery` (src/src/index.ts:446-448). -/
def buildQuery (dataPoint : String) : String :=
  "SELECT CreatedBy.Name, CreatedDate, Id, LastModifiedBy.Name, LastModifiedDate FROM "
    ++ dataPoint ++ " ORDER BY LastModifiedDate DESC"

/-- `queryDataPoints` (src/src/index.ts:522-530): queries each data point
in turn (the query is built from the trimmed name, the result is keyed by
the untrimmed name); the first query whose error is not handled inside
`queryMetadata` throws out of the loop. -/
def queryDataPoints (metadataQuery : String → QueryFate QueryRow) :
    List String → Except String (List (String × List QueryRow))
  | [] => Except.ok []
  | dataPoint :: rest =>
      match queryMetadata (metadataQuery dataPoint.trim) with
      | Except.error msg => Except.error msg
      | Except.ok result =>
          match queryDataPoints metadataQuery rest with
          | Except.error msg => Except.error msg
          | Except.ok others => Except.ok ((dataPoint, result) :: others)

/-- `calculateComponentSummary` (src/src/index.ts:381-405): a data point is
skipped when some error record carries its name in a `dataPoint` field
(modelled by the optional string each error exposes); a present, nonempty
row set contributes an entry with the row count and the head row's
`LastModifiedDate`; an absent or empty row set contributes nothing. -/
def calculateComponentSummary : List String → List (String × List QueryRow) →
    List (Option String) → List (String × ComponentSummary)
  | [], _, _ => []
  | dataPoint :: rest, queryResults, errors =>
      let tail := calculateComponentSummary rest queryResults errors
      if errors.any (fun e => e == some dataPoint) then tail
      else
        match List.lookup dataPoint queryResults with
        | some (lastRecord :: more) =>
            (dataPoint, { Total := (lastRecord :: more).length,
                          LastModifiedDate := lastRecord.LastModifiedDate }) :: tail
        | _ => tail

/-- `interface TestCoverageApex` (models/summary). -/
structure TestCoverageApex where
  Total : JSNum
  Details : List ApexClassCoverage
  deriving DecidableEq, Repr

/-- `interface TestCoverageFlow` (models/summary). -/
structure TestCoverageFlow where
  Total : Rat
  Details : List FlowCoverageOut
  deriving DecidableEq, Repr

/-- `interface TestSummary` (models/summary). -/
structure TestSummary where
  ApexUnitTests : Int
  TestDuration : Rat
  TestMethodsCompleted : Int
  TestMethodsFailed : Int
  TestOutcome : String
  ApexCoverageDetails : TestCoverageApex
  FlowCoverageDetails : TestCoverageFlow
  deriving DecidableEq, Repr

/-- `type OrgSummary` (src/src/index.ts:798-810): the report record; the
optional phase fragments are absent until their phase sets them. -/
structure OrgSummary where
  Timestamp : String
  ResultState : String
  OrgId : String
  OrgInstanceURL : String
  Username : String
  HealthCheck : Option HealthCheckSummary := none
  Limits : Option LimitSummary := none
  Code : Option CodeAnalysis := none
  Tests : Option TestSummary := none
  Metadata : Option (List (String × ComponentSummary)) := none
  deriving DecidableEq, Repr

/-- `interface flags` (src/src/index.ts:13-22). -/
structure Flags where
  outputdirectory : Option String := none
  metadata : Option String := none
  keepdata : Bool := false
  healthcheck : Bool := false
  limits : Bool := false
  codeanalysis : Bool := false
  tests : Bool := false
  targetusername : Option String := none
  deriving DecidableEq, Repr

/-- The run-scoped error entries `summarizeOrg` pushes
(src/src/index.ts:66,82,100,133,143): one single-key object per catch,
keyed by the failing phase. -/
inductive ErrEntry where
  | getHealthCheckScoreError (msg : String)
  | checkLimitsError (msg : String)
  | calculateLinesOfCodeError (msg : String)
  | runApexTestsError (msg : String)
  | componentSummaryError (msg : String)
  deriving DecidableEq, Repr

/-- The `dataPoint` field of an error entry, read by
`calculateComponentSummary`: none of the objects `summarizeOrg` pushes
carries one, so it is always `undefined`. -/
def ErrEntry.dataPointField : ErrEntry → Option String := fun _ => none

/-- Outcomes of every external call `summarizeOrg` and its helpers make
during one run; each field is the result the corresponding collaborator
would have produced. -/
structure SummarizeEnv where
  /-- `Date.now().toString()` (clock). -/
  timestamp : String
  /-- Outcome of the `sfdx force:org:display` call inside `getOrgInfo`. -/
  orgInfo : Except String OrgInfo
  /-- Modelled from the spec: the default data-point list imported from
  `./data/DataPoints` (a module not present in the sources); the spec says
  only that an absent `metadata` flag means all data points. -/
  dataPoints : List String
  /-- Outcome of the two health-check queries: the parsed score rows and
  risk rows, or the thrown command error. -/
  healthCheck : Except String (List Rat × List HealthCheckRisk)
  /-- Outcome of the `axios.get` limits call. -/
  limitsApi : Except String (List RawLimit)
  /-- Outcome of the code-analysis commands (project create, retrieve,
  scanner run, CSV read, line counting). -/
  codeAnalysis : Except String CodeAnalysisInputs
  /-- Outcome of the `sfdx force:apex:test:run` submission command. -/
  testsSubmit : Except String Unit
  /-- Result of `extractTestRunId` over the submission output file. -/
  testRunId : Option String
  /-- Outcomes of the successive `AsyncApexJob` status queries made by
  `pollTestRunResult`. -/
  pollTicks : List (QueryFate AsyncApexJobRow)
  /-- Outcome of the `ApexTestRunResult` query in `getTestRunDetails`. -/
  testDetailsQuery : QueryFate TestRunRow
  /-- Outcome of the `ApexOrgWideCoverage` query (per-row `PercentCovered`). -/
  orgWideQuery : QueryFate Rat
  /-- Outcome of the `ApexCodeCoverageAggregate` query. -/
  apexClassQuery : QueryFate ApexCovRow
  /-- Outcome of the `FlowTestCoverage` query (`GetFlowCoverage`). -/
  flowCoverageResult : Except String CoverageResult
  /-- Outcome of the `FlowDefinitionView` query (`GetFlowDefinitionViews`). -/
  flowDefsResult : Except String FlowDefinitionViewResult
  /-- Outcome of the inventory query for each (trimmed) data-point name. -/
  metadataQuery : String → QueryFate QueryRow

/-- `buildBaseSummary` (src/src/index.ts:24-39): the fresh report starts
`Pending`, carrying the tenant identity (resolved via `getOrgInfo` when no
info is passed in). -/
def buildBaseSummary (timestamp : String) (orgInfoCmd : Except String OrgInfo)
    (info? : Option OrgInfo) : OrgSummary :=
  let info :=
    match info? with
    | some i => i
    | none => getOrgInfo orgInfoCmd
  { Timestamp := timestamp, ResultState := "Pending", OrgId := info.orgId,
    Username := info.username, OrgInstanceURL := info.instanceUrl }

/-- The `selectedDataPoints` computation (src/src/index.ts:45-50):
`metadata === ""` selects nothing, a nonempty `metadata` is split on
commas, an absent flag selects the default list. -/
def selectedDataPointsOf (flags : Flags) (dataPoints : List String) : Option (List String) :=
  match flags.metadata with
  | some "" => none
  | some m => some (m.splitOn ",")
  | none => some dataPoints

/-- The health-check phase block (src/src/index.ts:62-68): a throw from
`getHealthCheckScore` (command failure or missing score row) is caught and
appended as a `getHealthCheckScoreError`. -/
def runHealthCheckPhase (flags : Flags) (env : SummarizeEnv)
    (p : OrgSummary × List ErrEntry) : OrgSummary × List ErrEntry :=
  if flags.healthcheck then
    match env.healthCheck with
    | Except.error msg => (p.1, p.2 ++ [ErrEntry.getHealthCheckScoreError msg])
    | Except.ok (scoreRows, riskRows) =>
        match getHealthCheckScore scoreRows riskRows with
        | Except.error msg => (p.1, p.2 ++ [ErrEntry.getHealthCheckScoreError msg])
        | Except.ok h => ({ p.1 with HealthCheck := some h }, p.2)
  else p

/-- The limits phase block (src/src/index.ts:70-84): `checkLimits` resolves
in every modelled outcome (it catches the HTTP error itself), so the
surrounding catch never fires and no error entry is ever appended here. -/
def runLimitsPhase (flags : Flags) (env : SummarizeEnv)
    (p : OrgSummary × List ErrEntry) : OrgSummary × List ErrEntry :=
  if flags.limits then
    let limits := checkLimits env.limitsApi
    ({ p.1 with Limits := some (buildLimitSummary limits) }, p.2)
  else p

/-- The code-analysis phase block (src/src/index.ts:86-102): a throw from
any of the commands is caught and appended as a
`calculateLinesOfCodeError`. -/
def runCodeAnalysisPhase (flags : Flags) (env : SummarizeEnv)
    (p : OrgSummary × List ErrEntry) : OrgSummary × List ErrEntry :=
  if flags.codeanalysis then
    match env.codeAnalysis with
    | Except.error msg => (p.1, p.2 ++ [ErrEntry.calculateLinesOfCodeError msg])
    | Except.ok inputs => ({ p.1 with Code := some (buildCodeAnalysis inputs) }, p.2)
  else p

/-- The tests phase block (src/src/index.ts:104-135): only the submission
command can throw inside the try (every helper below it catches its own
errors); with no extracted run id the phase silently does nothing; the
poll result is discarded by the source (line 111). -/
def runTestsPhase (flags : Flags) (env : SummarizeEnv)
    (p : OrgSummary × List ErrEntry) : OrgSummary × List ErrEntry :=
  if flags.tests then
    match env.testsSubmit with
    | Except.error msg => (p.1, p.2 ++ [ErrEntry.runApexTestsError msg])
    | Except.ok _ =>
        match env.testRunId with
        | none => p
        | some _ =>
            let _pollStatus := pollTestRunResult env.pollTicks
            let testResult := getTestRunDetails env.testDetailsQuery
            let orgWideApexCoverage := getOrgWideApexCoverage env.orgWideQuery
            let orgWideFlowCoverage := getFlowCoveragePercentage env.flowCoverageResult
            let flowCoverageDetails := getFlowCoverageDetails env.flowCoverageResult env.flowDefsResult
            ({ p.1 with Tests := some (
                { ApexUnitTests := (testResult.map TestRunDetails.methodsCompleted).getD 0,
                  TestDuration := (testResult.map TestRunDetails.runtime).getD 0,
                  TestMethodsCompleted := (testResult.map TestRunDetails.methodsCompleted).getD 0,
                  TestMethodsFailed := (testResult.map TestRunDetails.methodsFailed).getD 0,
                  TestOutcome := (testResult.map TestRunDetails.outcome).getD "N/A",
                  ApexCoverageDetails :=
                    { Total := orgWideApexCoverage.getD (JSNum.num 0),
                      Details := getApexClassCoverageDetails env.apexClassQuery },
                  FlowCoverageDetails :=
                    { Total := orgWideFlowCoverage,
                      Details := flowCoverageDetails } } : TestSummary) }, p.2)
  else p

/-- The component-inventory block (src/src/index.ts:137-145): runs when the
selected data-point list is present and nonempty; a throw escaping
`queryDataPoints` is caught and appended as a `componentSummaryError`. -/
def runMetadataPhase (flags : Flags) (env : SummarizeEnv)
    (p : OrgSummary × List ErrEntry) : OrgSummary × List ErrEntry :=
  match selectedDataPointsOf flags env.dataPoints with
  | none => p
  | some selectedDataPoints =>
      if selectedDataPoints.length > 0 then
        match queryDataPoints env.metadataQuery selectedDataPoints with
        | Except.error msg => (p.1, p.2 ++ [ErrEntry.componentSummaryError msg])
        | Except.ok queryResults =>
            ({ p.1 with Metadata := some (calculateComponentSummary selectedDataPoints
                  queryResults (p.2.map ErrEntry.dataPointField)) }, p.2)
      else p

/-- The five phase blocks of `summarizeOrg` in source order
(health check, limits, code analysis, tests, inventory), threading the
report and the accumulated error list. -/
def summarizePhases (flags : Flags) (env : SummarizeEnv) (baseSummary : OrgSummary) :
    OrgSummary × List ErrEntry :=
  runMetadataPhase flags env
    (runTestsPhase flags env
      (runCodeAnalysisPhase flags env
        (runLimitsPhase flags env
          (runHealthCheckPhase flags env (baseSummary, [])))))

/-- `summarizeOrg` (src/src/index.ts:41-153), also returning the internal
error list: resolve the org info, take the passed-in summary or build a
fresh base, run the phases, then set the final `ResultState` from the error
list (line 147).  Directory creation and the `finish` persistence/cleanup
step are file-system effects outside the embedding. -/
def summarizeOrgRun (flags : Flags) (env : SummarizeEnv) (base? : Option OrgSummary) :
    OrgSummary × List ErrEntry :=
  let info := getOrgInfo env.orgInfo
  let baseSummary := base?.getD (buildBaseSummary env.timestamp env.orgInfo (some info))
  let phased := summarizePhases flags env baseSummary
  ({ phased.1 with ResultState := if phased.2.length > 0 then "Failure" else "Completed" },
   phased.2)

/-! ## Concrete run inputs used by witnesses and counterexamples -/

/-- Flags with every phase off (all TypeScript fields optional/absent). -/
def defaultFlags : Flags := {}

/-- A benign environment: every collector call succeeds with empty data. -/
def defaultEnv : SummarizeEnv :=
  { timestamp := "1700000000000",
    orgInfo := Except.ok { username := "u@example.org", accessToken := "tok",
                           instanceUrl := "https://inst.example", orgId := "00D000000000001" },
    dataPoints := [],
    healthCheck := Except.ok ([87], []),
    limitsApi := Except.ok [],
    codeAnalysis := Except.ok
      { results := [], apexClassCL := { Total := 0, Comments := 0, Code := 0 },
        apexTriggerCL := { Total := 0, Comments := 0, Code := 0 },
        auraCL := { Total := 0, Comments := 0, Code := 0 },
        lwcCL := { Total := 0, Comments := 0, Code := 0 },
        staticCL := { Total := 0, Comments := 0, Code := 0 } },
    testsSubmit := Except.ok (),
    testRunId := none,
    pollTicks := [],
    testDetailsQuery := QueryFate.rows [],
    orgWideQuery := QueryFate.rows [],
    apexClassQuery := QueryFate.rows [],
    flowCoverageResult := Except.ok { status := 0, result := { done := true, totalSize := 0, records := [] } },
    flowDefsResult := Except.ok { status := 0, result := { done := true, totalSize := 0, records := [] } },
    metadataQuery := fun _ => QueryFate.rows [] }

/-! ## Helper lemmas -/

/-- Once the status is `Failed` the loop guard is false and the poll loop
returns immediately, whatever query outcomes remain. -/
theorem pollLoop_failed (ticks : List (QueryFate AsyncApexJobRow)) :
    pollLoop "Failed" ticks = some "Failed" := by
  cases ticks <;> simp [pollLoop, pollContinue]

/-! ## Claim theorems -/

/-- C3: `pollTestRunResult` loops exactly while the observed status is
`Queued` or `Processing`; a status query whose error escapes `queryMetadata`
is caught, sets the status to `Failed` and ends the loop without consuming
any further query outcome; with every tick answering `Queued` the loop is
still running after any number n of ticks (no maximum attempt count); the
wait between ticks is the fixed 5000 ms interval. -/
theorem sfos_C3 :
    (∀ status : String, pollContinue status = true ↔ (status = "Queued" ∨ status = "Processing")) ∧
    (∀ (status msg : String) (ticks : List (QueryFate AsyncApexJobRow)), pollContinue status = true →
       pollLoop status (QueryFate.cmdErrorThrow msg :: ticks) = some "Failed") ∧
    (∀ n : Nat,
       pollTestRunResult (List.replicate n (QueryFate.rows [{ Id := "707xx0000000001", Status := "Queued" }])) = none) ∧
    pollIntervalMs = 5000 := by
  refine ⟨?_, ?_, ?_, rfl⟩
  · intro status
    simp [pollContinue]
  · intro status msg ticks h
    simp [pollLoop, h, pollStep, queryMetadata, pollLoop_failed]
  · intro n
    induction n with
    | zero => simp [pollTestRunResult, pollLoop, pollContinue, List.replicate]
    | succ k ih =>
        simpa [pollTestRunResult, List.replicate, pollLoop, pollStep, queryMetadata,
          pollContinue] using ih

/-- C3 witness: at the concrete active status `Queued`, a throwing status
query makes the loop exit with `Failed` at once. -/
theorem sfos_C3_witness :
    pollContinue "Queued" = true ∧
    pollLoop "Queued" [QueryFate.cmdErrorThrow "spawn ENOENT"] = some "Failed" :=
  ⟨by decide, sfos_C3.2.1 "Queued" "spawn ENOENT" [] (by decide)⟩

/-- C5: for a test-run query returning at least one row, the reported
details classify the head row `Pass` iff its `Status` is `Completed` and
its `MethodsFailed` count is exactly 0, and `Fail` in every other case. -/
theorem sfos_C5 (row : TestRunRow) (rest : List TestRunRow) :
    ∃ d, getTestRunDetails (QueryFate.rows (row :: rest)) = some d ∧
      (d.outcome = "Pass" ↔ (row.Status = "Completed" ∧ row.MethodsFailed = 0)) ∧
      ((row.Status = "Completed" ∧ row.MethodsFailed = 0) → d.outcome = "Pass") ∧
      (¬(row.Status = "Completed" ∧ row.MethodsFailed = 0) → d.outcome = "Fail") := by
  refine ⟨_, rfl, ?_, ?_, ?_⟩ <;>
    by_cases h : row.Status = "Completed" ∧ row.MethodsFailed = 0 <;>
      simp [getTestRunDetails, queryMetadata, h]

/-- C5 witness: a `Completed` run with 0 failed methods is a `Pass`, and
with 2 failed methods a `Fail`. -/
theorem sfos_C5_witness :
    (getTestRunDetails (QueryFate.rows [(⟨"Completed", 12, 5, 0⟩ : TestRunRow)])).map
        TestRunDetails.outcome = some "Pass" ∧
    (getTestRunDetails (QueryFate.rows [(⟨"Completed", 12, 5, 2⟩ : TestRunRow)])).map
        TestRunDetails.outcome = some "Fail" := by
  constructor
  · obtain ⟨d, hd, _, hpass, _⟩ := sfos_C5 (⟨"Completed", 12, 5, 0⟩ : TestRunRow) []
    rw [hd, Option.map_some', hpass ⟨rfl, rfl⟩]
  · obtain ⟨d, hd, _, _, hfail⟩ := sfos_C5 (⟨"Completed", 12, 5, 2⟩ : TestRunRow) []
    rw [hd, Option.map_some', hfail (by simp)]

/-- C6: `calculateCoveragePercentage` is 0 when the covered and uncovered
counts are both 0 and `100 * C / (C + U)` otherwise, and always lies in the
interval [0, 100]. -/
theorem sfos_C6 (c u : Nat) :
    (c + u = 0 → calculateCoveragePercentage c u = 0) ∧
    (0 < c + u → calculateCoveragePercentage c u = 100 * (c : Rat) / ((c : Rat) + (u : Rat))) ∧
    0 ≤ calculateCoveragePercentage c u ∧ calculateCoveragePercentage c u ≤ 100 := by
  have hdef : calculateCoveragePercentage c u =
      if c + u > 0 then ((c : Rat) / (((c + u : Nat)) : Rat)) * 100 else 0 := rfl
  rcases Nat.eq_zero_or_pos (c + u) with h | h
  · rw [hdef, if_neg (by omega)]
    exact ⟨fun _ => rfl, fun hc => absurd hc (by omega), le_refl 0, by norm_num⟩
  · have hT0 : (0 : Rat) < ((c + u : Nat) : Rat) := by exact_mod_cast h
    have hTne : ((c + u : Nat) : Rat) ≠ 0 := ne_of_gt hT0
    rw [hdef, if_pos h]
    refine ⟨fun hc => absurd hc (by omega), fun _ => ?_, ?_, ?_⟩
    · rw [div_mul_eq_mul_div, mul_comm]
      push_cast
      ring_nf
    · positivity
    · have hcle : ((c : Nat) : Rat) ≤ ((c + u : Nat) : Rat) := by
        exact_mod_cast Nat.le_add_right c u
      calc ((c : Rat) / (((c + u : Nat)) : Rat)) * 100 ≤ 1 * 100 := by
            exact mul_le_mul_of_nonneg_right ((div_le_one hT0).mpr hcle) (by norm_num)
        _ = 100 := by norm_num

/-- C6 witness: at covered = 1, uncovered = 3 the percentage is 25. -/
theorem sfos_C6_witness :
    0 < 1 + 3 ∧ calculateCoveragePercentage 1 3 = 25 := by
  have h := (sfos_C6 1 3).2.1 (by norm_num)
  refine ⟨by norm_num, ?_⟩
  rw [h]
  norm_num

/-- Unfolding lemma: the final `ResultState` of a run is decided by the
length of the accumulated error list (src/src/index.ts:147). -/
theorem summarizeOrgRun_resultState (flags : Flags) (env : SummarizeEnv)
    (base? : Option OrgSummary) :
    (summarizeOrgRun flags env base?).1.ResultState =
      (if (summarizeOrgRun flags env base?).2.length > 0 then "Failure" else "Completed") := rfl

/-- C1: after the phases of `summarizeOrg` have run, the report's
`ResultState` is `Failure` iff the accumulated error list is nonempty and
`Completed` iff it is empty; the base summary built before any phase runs
carries `Pending`. -/
theorem sfos_C1 :
    (∀ (flags : Flags) (env : SummarizeEnv) (base? : Option OrgSummary),
       ((summarizeOrgRun flags env base?).1.ResultState = "Failure" ↔
          (summarizeOrgRun flags env base?).2 ≠ []) ∧
       ((summarizeOrgRun flags env base?).1.ResultState = "Completed" ↔
          (summarizeOrgRun flags env base?).2 = [])) ∧
    (∀ (ts : String) (cmd : Except String OrgInfo) (info? : Option OrgInfo),
       (buildBaseSummary ts cmd info?).ResultState = "Pending") := by
  constructor
  · intro flags env base?
    rw [summarizeOrgRun_resultState]
    cases h : (summarizeOrgRun flags env base?).2 with
    | nil => simp
    | cons e es => simp
  · intro ts cmd info?
    rfl

/-- C1 witness: a run with every phase off over the benign environment ends
`Completed` with an empty error list. -/
theorem sfos_C1_witness :
    (summarizeOrgRun defaultFlags defaultEnv none).1.ResultState = "Completed" := by
  exact ((sfos_C1.1 defaultFlags defaultEnv none).2).mpr rfl

/-- C7: `checkLimits` retains exactly the rows with both `Max` and
`Remaining` present, giving each `Usage = Max - Remaining`; a row missing
either field is skipped (absent from the retained details); the limits
fragment has `Applicable` = number of retained rows, `Reached` counting
retained rows with `Remaining = 0`, `Unattained = Applicable - Reached`,
and `Details` = the retained rows; a retained row is counted in `Reached`
iff its `Remaining` is exactly 0. -/
theorem sfos_C7 (rows : List RawLimit) :
    (∀ r ∈ rows, ∀ (m rem : Int), r.Max = some m → r.Remaining = some rem →
       ({ Name := r.Name, Description := "Description for " ++ r.Name,
          Max := m, Remaining := rem, Usage := m - rem } : Limit) ∈ checkLimits (Except.ok rows)) ∧
    (∀ (r : RawLimit) (rest : List RawLimit), (r.Max = none ∨ r.Remaining = none) →
       checkLimits (Except.ok (r :: rest)) = checkLimits (Except.ok rest)) ∧
    (∀ l ∈ checkLimits (Except.ok rows), l.Usage = l.Max - l.Remaining ∧
       ∃ r ∈ rows, r.Max = some l.Max ∧ r.Remaining = some l.Remaining ∧ r.Name = l.Name) ∧
    (buildLimitSummary (checkLimits (Except.ok rows))).Details = checkLimits (Except.ok rows) ∧
    (buildLimitSummary (checkLimits (Except.ok rows))).Applicable =
      ((checkLimits (Except.ok rows)).length : Int) ∧
    (buildLimitSummary (checkLimits (Except.ok rows))).Reached =
      (((checkLimits (Except.ok rows)).filter (fun l => l.Remaining == 0)).length : Int) ∧
    (buildLimitSummary (checkLimits (Except.ok rows))).Unattained =
      (buildLimitSummary (checkLimits (Except.ok rows))).Applicable -
        (buildLimitSummary (checkLimits (Except.ok rows))).Reached ∧
    (∀ l ∈ checkLimits (Except.ok rows),
       (l ∈ (checkLimits (Except.ok rows)).filter (fun l => l.Remaining == 0) ↔ l.Remaining = 0)) ∧
    (∀ (flags : Flags) (env : SummarizeEnv) (p : OrgSummary × List ErrEntry),
       flags.limits = true → env.limitsApi = Except.ok rows →
       (runLimitsPhase flags env p).1.Limits =
         some (buildLimitSummary (checkLimits (Except.ok rows)))) := by
  refine ⟨?_, ?_, ?_, rfl, rfl, rfl, rfl, ?_, ?_⟩
  · intro r hr m rem hm hrem
    exact List.mem_filterMap.mpr ⟨r, hr, by rw [hm, hrem]⟩
  · intro r rest h
    rcases h with h | h
    · simp [checkLimits, List.filterMap_cons, h]
    · cases hM : r.Max <;> simp [checkLimits, List.filterMap_cons, h, hM]
  · intro l hl
    obtain ⟨r, hr, hfr⟩ := List.mem_filterMap.mp hl
    cases hM : r.Max with
    | none => rw [hM] at hfr; simp at hfr
    | some m =>
      cases hR : r.Remaining with
      | none => rw [hM, hR] at hfr; simp at hfr
      | some rem =>
        rw [hM, hR] at hfr
        simp only [Option.some.injEq] at hfr
        subst hfr
        exact ⟨rfl, r, hr, by rw [hM], by rw [hR], rfl⟩
  · intro l hl
    simp [List.mem_filter, hl]
  · intro flags env p hf he
    simp [runLimitsPhase, hf, he]

/-- Scenario-B limit rows: one complete entry and one missing `Remaining`. -/
def rawLimitsB : List RawLimit :=
  [⟨"DataStorageMB", some 100, some 40⟩, ⟨"FileStorageMB", some 5, none⟩]

/-- C7 witness: with one complete row (`Max 100`, `Remaining 40`) and one
row missing `Remaining`, the complete row is retained with `Usage = 60` and
the fragment is `Applicable 1 / Reached 0 / Unattained 1` with only the
complete row in `Details`. -/
theorem sfos_C7_witness :
    (⟨"DataStorageMB", some 100, some 40⟩ : RawLimit) ∈ rawLimitsB ∧
    (⟨"DataStorageMB", "Description for DataStorageMB", 100, 40, 60⟩ : Limit) ∈
      checkLimits (Except.ok rawLimitsB) ∧
    buildLimitSummary (checkLimits (Except.ok rawLimitsB)) =
      ⟨1, 0, 1, [⟨"DataStorageMB", "Description for DataStorageMB", 100, 40, 60⟩]⟩ := by
  refine ⟨by decide, ?_, by decide⟩
  exact (sfos_C7 rawLimitsB).1 ⟨"DataStorageMB", some 100, some 40⟩ (by decide) 100 40 rfl rfl

/-- C8 counterexample: over an empty `ApexOrgWideCoverage` row set the
function returns `NaN` (the JavaScript `0 / 0`), not `null` — refuting the
claim that the empty row set yields null. -/
theorem sfos_C8_counterexample :
    getOrgWideApexCoverage (QueryFate.rows ([] : List Rat)) = some JSNum.nan ∧
    some JSNum.nan ≠ (none : Option JSNum) := by
  exact ⟨by decide, by simp⟩

/-- C8 amended: the org-wide Apex coverage is the arithmetic mean
`sum / count` of the per-row percent-covered values whenever the row set is
nonempty; it is `null` only when the query call itself throws; an empty row
set (including a handled command failure, which yields empty rows) gives
`NaN`, not `null`. -/
theorem sfos_C8_amended :
    (∀ msg, getOrgWideApexCoverage (QueryFate.cmdErrorThrow msg) = none) ∧
    (∀ msg, getOrgWideApexCoverage (QueryFate.cmdErrorHandled msg) = some JSNum.nan) ∧
    (∀ rows : List Rat, rows ≠ [] →
       getOrgWideApexCoverage (QueryFate.rows rows) =
         some (JSNum.num (rows.foldl (· + ·) 0 / (rows.length : Rat)))) := by
  refine ⟨fun _ => rfl, fun _ => rfl, ?_⟩
  intro rows h
  have hlen : ((rows.length : Nat) : Rat) ≠ 0 := by
    simp [List.length_eq_zero, h]
  simp [getOrgWideApexCoverage, queryMetadata, jsDiv, hlen]

/-- C8 amended witness: over the two rows 50 and 70 the coverage is their
mean. -/
theorem sfos_C8_amended_witness :
    ([(50 : Rat), 70] ≠ []) ∧
    getOrgWideApexCoverage (QueryFate.rows [(50 : Rat), 70]) =
      some (JSNum.num (([(50 : Rat), 70].foldl (· + ·) 0) / (([(50 : Rat), 70].length : Nat) : Rat))) := by
  exact ⟨by simp, sfos_C8_amended.2.2 [(50 : Rat), 70] (by simp)⟩

/-! ## Error-list characterization (per-phase contributions) -/

/-- Error entries the health-check phase contributes to a run. -/
def healthCheckPhaseErrors (flags : Flags) (env : SummarizeEnv) : List ErrEntry :=
  if flags.healthcheck then
    match env.healthCheck with
    | Except.error msg => [ErrEntry.getHealthCheckScoreError msg]
    | Except.ok (scoreRows, riskRows) =>
        match getHealthCheckScore scoreRows riskRows with
        | Except.error msg => [ErrEntry.getHealthCheckScoreError msg]
        | Except.ok _ => []
  else []

/-- Error entries the code-analysis phase contributes to a run. -/
def codeAnalysisPhaseErrors (flags : Flags) (env : SummarizeEnv) : List ErrEntry :=
  if flags.codeanalysis then
    match env.codeAnalysis with
    | Except.error msg => [ErrEntry.calculateLinesOfCodeError msg]
    | Except.ok _ => []
  else []

/-- Error entries the tests phase contributes to a run. -/
def testsPhaseErrors (flags : Flags) (env : SummarizeEnv) : List ErrEntry :=
  if flags.tests then
    match env.testsSubmit with
    | Except.error msg => [ErrEntry.runApexTestsError msg]
    | Except.ok _ => []
  else []

/-- Error entries the component-inventory phase contributes to a run. -/
def metadataPhaseErrors (flags : Flags) (env : SummarizeEnv) : List ErrEntry :=
  match selectedDataPointsOf flags env.dataPoints with
  | none => []
  | some sel =>
      if sel.length > 0 then
        match queryDataPoints env.metadataQuery sel with
        | Except.error msg => [ErrEntry.componentSummaryError msg]
        | Except.ok _ => []
      else []

/-- The health-check phase appends exactly its own contribution. -/
theorem errs_runHealthCheckPhase (flags : Flags) (env : SummarizeEnv)
    (p : OrgSummary × List ErrEntry) :
    (runHealthCheckPhase flags env p).2 = p.2 ++ healthCheckPhaseErrors flags env := by
  unfold runHealthCheckPhase healthCheckPhaseErrors
  cases flags.healthcheck
  · simp
  · cases env.healthCheck with
    | error m => simp
    | ok pr =>
        obtain ⟨s, r⟩ := pr
        cases hs : getHealthCheckScore s r <;> simp [hs]

/-- The limits phase never appends an error entry. -/
theorem errs_runLimitsPhase (flags : Flags) (env : SummarizeEnv)
    (p : OrgSummary × List ErrEntry) :
    (runLimitsPhase flags env p).2 = p.2 := by
  unfold runLimitsPhase
  cases flags.limits <;> simp

/-- The code-analysis phase appends exactly its own contribution. -/
theorem errs_runCodeAnalysisPhase (flags : Flags) (env : SummarizeEnv)
    (p : OrgSummary × List ErrEntry) :
    (runCodeAnalysisPhase flags env p).2 = p.2 ++ codeAnalysisPhaseErrors flags env := by
  unfold runCodeAnalysisPhase codeAnalysisPhaseErrors
  cases flags.codeanalysis
  · simp
  · cases env.codeAnalysis <;> simp

/-- The tests phase appends exactly its own contribution. -/
theorem errs_runTestsPhase (flags : Flags) (env : SummarizeEnv)
    (p : OrgSummary × List ErrEntry) :
    (runTestsPhase flags env p).2 = p.2 ++ testsPhaseErrors flags env := by
  unfold runTestsPhase testsPhaseErrors
  cases flags.tests
  · simp
  · cases env.testsSubmit with
    | error m => simp
    | ok u => cases env.testRunId <;> simp

/-- The inventory phase appends exactly its own contribution. -/
theorem errs_runMetadataPhase (flags : Flags) (env : SummarizeEnv)
    (p : OrgSummary × List ErrEntry) :
    (runMetadataPhase flags env p).2 = p.2 ++ metadataPhaseErrors flags env := by
  unfold runMetadataPhase metadataPhaseErrors
  cases selectedDataPointsOf flags env.dataPoints with
  | none => simp
  | some sel =>
      cases hq : queryDataPoints env.metadataQuery sel <;>
        by_cases hl : sel.length > 0 <;> simp [hq, hl]

/-- Flags that request only the resource-limits phase. -/
def c2flags : Flags := { limits := true }

/-- Environment whose limits HTTP call rejects. -/
def c2env : SummarizeEnv := { defaultEnv with limitsApi := Except.error "getaddrinfo ENOTFOUND" }

/-- C2 counterexample: with the limits collector failing, the run records
no error entry at all (the failure is swallowed inside `checkLimits`), ends
`Completed`, and persists an all-zero limits fragment — refuting the claim
that every collector failure is appended to the run's error list as one
entry for its phase. -/
theorem sfos_C2_counterexample :
    c2flags.limits = true ∧
    c2env.limitsApi = Except.error "getaddrinfo ENOTFOUND" ∧
    (summarizeOrgRun c2flags c2env none).2 = [] ∧
    (summarizeOrgRun c2flags c2env none).1.ResultState = "Completed" ∧
    (summarizeOrgRun c2flags c2env none).1.Limits =
      some { Applicable := 0, Reached := 0, Unattained := 0, Details := [] } :=
  ⟨rfl, rfl, rfl, rfl, rfl⟩

/-- C2 amended: an error that reaches a phase boundary of `summarizeOrg` is
caught there, wrapped as a phase-tagged entry, appended to the run's error
list, and the pipeline continues (the error list is exactly the
concatenation of the four possible per-phase contributions, each of at most
one entry); but a collector failure inside `checkLimits`, and a handled
command failure inside `queryMetadata`, are swallowed locally — the limits
phase never contributes an error entry. -/
theorem sfos_C2_amended :
    (∀ (flags : Flags) (env : SummarizeEnv),
       (summarizeOrgRun flags env none).2 =
         healthCheckPhaseErrors flags env ++ codeAnalysisPhaseErrors flags env ++
           testsPhaseErrors flags env ++ metadataPhaseErrors flags env) ∧
    (∀ (flags : Flags) (env : SummarizeEnv),
       (healthCheckPhaseErrors flags env).length ≤ 1 ∧
       (codeAnalysisPhaseErrors flags env).length ≤ 1 ∧
       (testsPhaseErrors flags env).length ≤ 1 ∧
       (metadataPhaseErrors flags env).length ≤ 1) ∧
    (∀ (flags : Flags) (env : SummarizeEnv) (p : OrgSummary × List ErrEntry),
       (runLimitsPhase flags env p).2 = p.2) := by
  refine ⟨?_, ?_, errs_runLimitsPhase⟩
  · intro flags env
    have h : (summarizeOrgRun flags env none).2 =
        (summarizePhases flags env (buildBaseSummary env.timestamp env.orgInfo
          (some (getOrgInfo env.orgInfo)))).2 := rfl
    rw [h]
    unfold summarizePhases
    rw [errs_runMetadataPhase, errs_runTestsPhase, errs_runCodeAnalysisPhase,
      errs_runLimitsPhase, errs_runHealthCheckPhase]
    simp [List.append_assoc]
  · intro flags env
    refine ⟨?_, ?_, ?_, ?_⟩
    · unfold healthCheckPhaseErrors
      cases flags.healthcheck
      · simp
      · cases env.healthCheck with
        | error m => simp
        | ok pr =>
            obtain ⟨s, r⟩ := pr
            cases hs : getHealthCheckScore s r <;> simp [hs]
    · unfold codeAnalysisPhaseErrors
      cases flags.codeanalysis
      · simp
      · cases env.codeAnalysis <;> simp
    · unfold testsPhaseErrors
      cases flags.tests
      · simp
      · cases env.testsSubmit <;> simp
    · unfold metadataPhaseErrors
      cases selectedDataPointsOf flags env.dataPoints with
      | none => simp
      | some sel =>
          cases hq : queryDataPoints env.metadataQuery sel <;>
            by_cases hl : sel.length > 0 <;> simp [hq, hl]

/-! ## Field-preservation lemmas for the phase pipeline -/

/-- The health-check phase leaves the tenant-identity fields and the code
fragment of the report unchanged. -/
theorem keep_runHealthCheckPhase (flags : Flags) (env : SummarizeEnv)
    (p : OrgSummary × List ErrEntry) :
    (runHealthCheckPhase flags env p).1.OrgId = p.1.OrgId ∧
    (runHealthCheckPhase flags env p).1.Username = p.1.Username ∧
    (runHealthCheckPhase flags env p).1.OrgInstanceURL = p.1.OrgInstanceURL ∧
    (runHealthCheckPhase flags env p).1.Code = p.1.Code := by
  unfold runHealthCheckPhase
  cases flags.healthcheck
  · simp
  · cases env.healthCheck with
    | error m => simp
    | ok pr =>
        obtain ⟨s, r⟩ := pr
        cases hs : getHealthCheckScore s r <;> simp [hs]

/-- The limits phase leaves the tenant-identity fields and the code
fragment of the report unchanged. -/
theorem keep_runLimitsPhase (flags : Flags) (env : SummarizeEnv)
    (p : OrgSummary × List ErrEntry) :
    (runLimitsPhase flags env p).1.OrgId = p.1.OrgId ∧
    (runLimitsPhase flags env p).1.Username = p.1.Username ∧
    (runLimitsPhase flags env p).1.OrgInstanceURL = p.1.OrgInstanceURL ∧
    (runLimitsPhase flags env p).1.Code = p.1.Code := by
  unfold runLimitsPhase
  cases flags.limits <;> simp

/-- The code-analysis phase leaves the tenant-identity fields unchanged. -/
theorem keep_runCodeAnalysisPhase (flags : Flags) (env : SummarizeEnv)
    (p : OrgSummary × List ErrEntry) :
    (runCodeAnalysisPhase flags env p).1.OrgId = p.1.OrgId ∧
    (runCodeAnalysisPhase flags env p).1.Username = p.1.Username ∧
    (runCodeAnalysisPhase flags env p).1.OrgInstanceURL = p.1.OrgInstanceURL := by
  unfold runCodeAnalysisPhase
  cases flags.codeanalysis
  · simp
  · cases env.codeAnalysis <;> simp

/-- The tests phase leaves the tenant-identity fields and the code
fragment of the report unchanged. -/
theorem keep_runTestsPhase (flags : Flags) (env : SummarizeEnv)
    (p : OrgSummary × List ErrEntry) :
    (runTestsPhase flags env p).1.OrgId = p.1.OrgId ∧
    (runTestsPhase flags env p).1.Username = p.1.Username ∧
    (runTestsPhase flags env p).1.OrgInstanceURL = p.1.OrgInstanceURL ∧
    (runTestsPhase flags env p).1.Code = p.1.Code := by
  unfold runTestsPhase
  cases flags.tests
  · simp
  · cases env.testsSubmit with
    | error m => simp
    | ok u => cases env.testRunId <;> simp

/-- The inventory phase leaves the tenant-identity fields and the code
fragment of the report unchanged. -/
theorem keep_runMetadataPhase (flags : Flags) (env : SummarizeEnv)
    (p : OrgSummary × List ErrEntry) :
    (runMetadataPhase flags env p).1.OrgId = p.1.OrgId ∧
    (runMetadataPhase flags env p).1.Username = p.1.Username ∧
    (runMetadataPhase flags env p).1.OrgInstanceURL = p.1.OrgInstanceURL ∧
    (runMetadataPhase flags env p).1.Code = p.1.Code := by
  unfold runMetadataPhase
  cases selectedDataPointsOf flags env.dataPoints with
  | none => simp
  | some sel =>
      cases hq : queryDataPoints env.metadataQuery sel <;>
        by_cases hl : sel.length > 0 <;> simp [hq, hl]

/-- The whole phase pipeline preserves the tenant-identity fields of the
base summary. -/
theorem ids_summarizePhases (flags : Flags) (env : SummarizeEnv) (b : OrgSummary) :
    (summarizePhases flags env b).1.OrgId = b.OrgId ∧
    (summarizePhases flags env b).1.Username = b.Username ∧
    (summarizePhases flags env b).1.OrgInstanceURL = b.OrgInstanceURL := by
  unfold summarizePhases
  refine ⟨?_, ?_, ?_⟩
  · rw [(keep_runMetadataPhase flags env _).1, (keep_runTestsPhase flags env _).1,
      (keep_runCodeAnalysisPhase flags env _).1, (keep_runLimitsPhase flags env _).1,
      (keep_runHealthCheckPhase flags env _).1]
  · rw [(keep_runMetadataPhase flags env _).2.1, (keep_runTestsPhase flags env _).2.1,
      (keep_runCodeAnalysisPhase flags env _).2.1, (keep_runLimitsPhase flags env _).2.1,
      (keep_runHealthCheckPhase flags env _).2.1]
  · rw [(keep_runMetadataPhase flags env _).2.2.1, (keep_runTestsPhase flags env _).2.2.1,
      (keep_runCodeAnalysisPhase flags env _).2.2, (keep_runLimitsPhase flags env _).2.2.1,
      (keep_runHealthCheckPhase flags env _).2.2.1]

/-- Environment in which resolving the tenant identity fails. -/
def c9env : SummarizeEnv := { defaultEnv with orgInfo := Except.error "No default environment found" }

/-- C9 counterexample: with org-info resolution failing and no phase
selected, the run does not halt — it returns a finished report, with
`Completed` state and empty tenant-identity fields — refuting the claim
that the run halts with the error and no report is produced. -/
theorem sfos_C9_counterexample :
    c9env.orgInfo = Except.error "No default environment found" ∧
    (summarizeOrgRun defaultFlags c9env none).1.ResultState = "Completed" ∧
    (summarizeOrgRun defaultFlags c9env none).1 =
      { Timestamp := "1700000000000", ResultState := "Completed", OrgId := "",
        OrgInstanceURL := "", Username := "" } :=
  ⟨rfl, rfl, rfl⟩

/-- C9 amended: when org-info resolution fails, `getOrgInfo` catches the
error and returns an identity whose four fields are empty strings; the run
proceeds through the phases and still finishes with a definite report whose
tenant-identity fields are empty. -/
theorem sfos_C9_amended (flags : Flags) (env : SummarizeEnv) (msg : String)
    (h : env.orgInfo = Except.error msg) :
    getOrgInfo (Except.error msg : Except String OrgInfo) =
      { username := "", accessToken := "", instanceUrl := "", orgId := "" } ∧
    (summarizeOrgRun flags env none).1.OrgId = "" ∧
    (summarizeOrgRun flags env none).1.Username = "" ∧
    (summarizeOrgRun flags env none).1.OrgInstanceURL = "" ∧
    ((summarizeOrgRun flags env none).1.ResultState = "Failure" ∨
     (summarizeOrgRun flags env none).1.ResultState = "Completed") := by
  have e1 : (summarizeOrgRun flags env none).1.OrgId =
      (summarizePhases flags env (buildBaseSummary env.timestamp env.orgInfo
        (some (getOrgInfo env.orgInfo)))).1.OrgId := rfl
  have e2 : (summarizeOrgRun flags env none).1.Username =
      (summarizePhases flags env (buildBaseSummary env.timestamp env.orgInfo
        (some (getOrgInfo env.orgInfo)))).1.Username := rfl
  have e3 : (summarizeOrgRun flags env none).1.OrgInstanceURL =
      (summarizePhases flags env (buildBaseSummary env.timestamp env.orgInfo
        (some (getOrgInfo env.orgInfo)))).1.OrgInstanceURL := rfl
  obtain ⟨h1, h2, h3⟩ := ids_summarizePhases flags env
    (buildBaseSummary env.timestamp env.orgInfo (some (getOrgInfo env.orgInfo)))
  refine ⟨rfl, ?_, ?_, ?_, ?_⟩
  · rw [e1, h1]; simp [buildBaseSummary, getOrgInfo, h]
  · rw [e2, h2]; simp [buildBaseSummary, getOrgInfo, h]
  · rw [e3, h3]; simp [buildBaseSummary, getOrgInfo, h]
  · by_cases hl : (summarizeOrgRun flags env none).2.length > 0
    · left; rw [summarizeOrgRun_resultState, if_pos hl]
    · right; rw [summarizeOrgRun_resultState, if_neg hl]

/-- C9 amended witness: the concrete failing-identity run carries empty
tenant fields. -/
theorem sfos_C9_amended_witness :
    getOrgInfo (Except.error "No default environment found" : Except String OrgInfo) =
      { username := "", accessToken := "", instanceUrl := "", orgId := "" } ∧
    (summarizeOrgRun defaultFlags c9env none).1.OrgId = "" := by
  have h := sfos_C9_amended defaultFlags c9env "No default environment found" rfl
  exact ⟨h.1, h.2.1⟩

/-- Flags that request only the code-analysis phase. -/
def c4flags : Flags := { codeanalysis := true }

/-- Code-analysis inputs for a retrieval with zero source files and zero
scanner findings (the `countCodeLines` results are all zero). -/
def c4inputs : CodeAnalysisInputs :=
  { results := [], apexClassCL := ⟨0, 0, 0⟩, apexTriggerCL := ⟨0, 0, 0⟩,
    auraCL := ⟨0, 0, 0⟩, lwcCL := ⟨0, 0, 0⟩, staticCL := ⟨0, 0, 0⟩ }

/-- C4 counterexample: over zero source files the persisted
`RisksPerLineRatio` is `NaN` (the JavaScript `0 / 0`), not the claimed
zero-division policy value 0. -/
theorem sfos_C4_counterexample :
    ((summarizeOrgRun c4flags defaultEnv none).1.Code).map CodeAnalysis.RisksPerLineRatio =
      some JSNum.nan ∧ JSNum.nan ≠ JSNum.num 0 :=
  ⟨rfl, by simp⟩

/-- C4 amended: when the static-analysis phase runs over zero source lines
(`totalLines = 0`), the persisted `RisksPerLineRatio` is `NaN` when the
risk count is 0 and `+Infinity` otherwise — never a finite number, and in
particular never the policy value 0; no zero-division policy is applied. -/
theorem sfos_C4_amended (flags : Flags) (env : SummarizeEnv) (inputs : CodeAnalysisInputs)
    (hflag : flags.codeanalysis = true)
    (henv : env.codeAnalysis = Except.ok inputs)
    (hzero : inputs.apexClassCL.Total + inputs.apexTriggerCL.Total + inputs.auraCL.Total +
      inputs.lwcCL.Total + inputs.staticCL.Total = 0) :
    (summarizeOrgRun flags env none).1.Code = some (buildCodeAnalysis inputs) ∧
    (buildCodeAnalysis inputs).RisksPerLineRatio =
      (if inputs.results.length = 0 then JSNum.nan else JSNum.posInf) ∧
    (∀ q : Rat, (buildCodeAnalysis inputs).RisksPerLineRatio ≠ JSNum.num q) := by
  have hA : inputs.apexClassCL.Total + inputs.apexTriggerCL.Total = 0 := by omega
  have hJ : inputs.auraCL.Total + inputs.lwcCL.Total + inputs.staticCL.Total = 0 := by omega
  have hratio : (buildCodeAnalysis inputs).RisksPerLineRatio =
      (if inputs.results.length = 0 then JSNum.nan else JSNum.posInf) := by
    by_cases hr : inputs.results.length = 0
    · simp [buildCodeAnalysis, calculateCodeLines, hA, hJ, jsDiv, hr]
    · have h1 : ((inputs.results.length : Nat) : Rat) ≠ 0 := by exact_mod_cast hr
      have h2 : (0 : Rat) < ((inputs.results.length : Nat) : Rat) := by
        exact_mod_cast Nat.pos_of_ne_zero hr
      simp [buildCodeAnalysis, calculateCodeLines, hA, hJ, jsDiv, hr, h1, h2]
  refine ⟨?_, hratio, ?_⟩
  · have e1 : (summarizeOrgRun flags env none).1.Code =
        (summarizePhases flags env (buildBaseSummary env.timestamp env.orgInfo
          (some (getOrgInfo env.orgInfo)))).1.Code := rfl
    rw [e1]
    unfold summarizePhases
    rw [(keep_runMetadataPhase flags env _).2.2.2, (keep_runTestsPhase flags env _).2.2.2]
    unfold runCodeAnalysisPhase
    simp [hflag, henv]
  · intro q
    rw [hratio]
    by_cases hr : inputs.results.length = 0 <;> simp [hr]

/-- C4 amended witness: at the concrete zero-file, zero-risk inputs the
report carries the code fragment whose ratio is `NaN`. -/
theorem sfos_C4_amended_witness :
    (summarizeOrgRun c4flags defaultEnv none).1.Code = some (buildCodeAnalysis c4inputs) ∧
    (buildCodeAnalysis c4inputs).RisksPerLineRatio =
      (if c4inputs.results.length = 0 then JSNum.nan else JSNum.posInf) := by
  have h := sfos_C4_amended c4flags defaultEnv c4inputs rfl rfl (by decide)
  exact ⟨h.1, h.2.1⟩

/-- Every entry `calculateComponentSummary` emits comes from a present,
nonempty row set: its `Total` is that row set's (positive) length and its
`LastModifiedDate` is the head row's. -/
theorem calculateComponentSummary_mem (queryResults : List (String × List QueryRow))
    (errors : List (Option String)) :
    ∀ (selected : List String) (key : String) (cs : ComponentSummary),
      (key, cs) ∈ calculateComponentSummary selected queryResults errors →
      1 ≤ cs.Total ∧ ∃ lastRecord more, List.lookup key queryResults = some (lastRecord :: more) ∧
        cs.Total = (lastRecord :: more).length ∧
        cs.LastModifiedDate = lastRecord.LastModifiedDate := by
  intro selected
  induction selected with
  | nil => intro key cs h; simp [calculateComponentSummary] at h
  | cons dp rest ih =>
      intro key cs h
      simp only [calculateComponentSummary] at h
      by_cases hskip : errors.any (fun e => e == some dp)
      · rw [if_pos hskip] at h
        exact ih key cs h
      · rw [if_neg hskip] at h
        cases hl : List.lookup dp queryResults with
        | none => rw [hl] at h; exact ih key cs h
        | some rs =>
            cases rs with
            | nil => rw [hl] at h; exact ih key cs h
            | cons r more =>
                rw [hl] at h
                rcases List.mem_cons.mp h with heq | hmem
                · simp only [Prod.mk.injEq] at heq
                  obtain ⟨hk, hcs⟩ := heq
                  subst hk
                  subst hcs
                  exact ⟨by simp, r, more, hl, rfl, rfl⟩
                · exact ih key cs hmem

/-- C10: every metadata entry the inventory derivation emits has
`Total ≥ 1`, equal to the length of the (present, nonempty) row set of its
key, and carries the head row's `LastModifiedDate`; a requested type whose
query succeeded with zero rows is omitted entirely from the map. -/
theorem sfos_C10 (queryResults : List (String × List QueryRow))
    (errors : List (Option String)) :
    (∀ (selected : List String) (key : String) (cs : ComponentSummary),
       (key, cs) ∈ calculateComponentSummary selected queryResults errors →
       1 ≤ cs.Total ∧ ∃ lastRecord more, List.lookup key queryResults = some (lastRecord :: more) ∧
         cs.Total = (lastRecord :: more).length ∧
         cs.LastModifiedDate = lastRecord.LastModifiedDate) ∧
    (∀ (selected : List String) (key : String), List.lookup key queryResults = some [] →
       ∀ cs : ComponentSummary, (key, cs) ∉ calculateComponentSummary selected queryResults errors) := by
  refine ⟨calculateComponentSummary_mem queryResults errors, ?_⟩
  intro selected key hempty cs hmem
  obtain ⟨_, r, more, hl, _, _⟩ :=
    calculateComponentSummary_mem queryResults errors selected key cs hmem
  rw [hempty] at hl
  simp at hl

/-- Scenario-A inventory rows for `Type1`, sorted by modification date
descending. -/
def c10rows : List QueryRow :=
  [⟨"u", "2024-01-03", "id1", "u", "2024-01-03"⟩,
   ⟨"u", "2024-01-02", "id2", "u", "2024-01-02"⟩,
   ⟨"u", "2024-01-01", "id3", "u", "2024-01-01"⟩]

/-- Scenario-A query results: `Type1` has three rows, `Type2` has none. -/
def c10queryResults : List (String × List QueryRow) :=
  [("Type1", c10rows), ("Type2", [])]

/-- C10 witness: the concrete map contains only the `Type1` entry, whose
total is 3 and whose date is the head row's `2024-01-03`. -/
theorem sfos_C10_witness :
    (("Type1", (⟨3, "2024-01-03"⟩ : ComponentSummary)) ∈
       calculateComponentSummary ["Type1", "Type2"] c10queryResults []) ∧
    (1 ≤ (⟨3, "2024-01-03"⟩ : ComponentSummary).Total ∧
     ∃ lastRecord more, List.lookup "Type1" c10queryResults = some (lastRecord :: more) ∧
       (⟨3, "2024-01-03"⟩ : ComponentSummary).Total = (lastRecord :: more).length ∧
       (⟨3, "2024-01-03"⟩ : ComponentSummary).LastModifiedDate = lastRecord.LastModifiedDate) := by
  have hmem : ("Type1", (⟨3, "2024-01-03"⟩ : ComponentSummary)) ∈
      calculateComponentSummary ["Type1", "Type2"] c10queryResults [] := by decide
  exact ⟨hmem, (sfos_C10 c10queryResults []).1 ["Type1", "Type2"] "Type1" ⟨3, "2024-01-03"⟩ hmem⟩
